import Mathlib

/-!
Verification development for the FoodLogger backend
(`backend/app/ml_model.py` and `backend/app/pipeline.py`).

Python floats are modelled as rationals.  Python `round(x, 1)` is modelled as
`round1 x = floor(10*x + 1/2)/10` (round half up at one decimal); ties at an
exact half decimal, where Python uses round-half-even on binary floats, do not
occur in any concrete value examined below.  Python dicts that are only read
back by key are modelled as association lists with insert-or-replace update.
-/

namespace FoodLogger

/-- Model of Python `round(x, 1)` on rationals. -/
def round1 (x : ℚ) : ℚ := (⌊10 * x + 1/2⌋ : ℚ) / 10

/-- Model of Python `round(x, 2)` on rationals. -/
def round2 (x : ℚ) : ℚ := (⌊100 * x + 1/2⌋ : ℚ) / 100

/-- Substring test on character lists: does the second list contain the first
as a contiguous infix?  Models Python `needle in hay` on strings. -/
def listContainsSub (needle : List Char) : List Char → Bool
  | [] => needle.isEmpty
  | c :: rest => needle.isPrefixOf (c :: rest) || listContainsSub needle rest

/-- Python `needle in hay` for strings. -/
def strContains (hay needle : String) : Bool :=
  listContainsSub needle.toList hay.toList

/-- Model of `label.lower().replace('_', ' ')` from `normalize_food_label`
(ml_model.py line 248); `'_'.toLower = '_'`, so mapping each character through
lower-then-underscore-to-space is the same transformation. -/
def canon (label : String) : String :=
  String.mk (label.toList.map fun c => if c = '_' then ' ' else c.toLower)

/-- One row of NUTRITION_DATABASE (ml_model.py lines 136-240). -/
structure NutritionFacts where
  calories_per_100g : ℚ
  protein_per_100g : ℚ
  carbs_per_100g : ℚ
  fat_per_100g : ℚ
  density_g_per_ml : ℚ
  typical_serving_g : ℚ
deriving DecidableEq

/-- The `'default'` row of NUTRITION_DATABASE (ml_model.py lines 232-239). -/
def DEFAULT_FACTS : NutritionFacts :=
  { calories_per_100g := 150
    protein_per_100g := 10
    carbs_per_100g := 15
    fat_per_100g := 5
    density_g_per_ml := 1
    typical_serving_g := 100 }

/-- NUTRITION_DATABASE (ml_model.py lines 136-240), in source order.  Each
row is ⟨calories_per_100g, protein_per_100g, carbs_per_100g, fat_per_100g,
density_g_per_ml, typical_serving_g⟩. -/
def NUTRITION_DATABASE : List (String × NutritionFacts) :=
  [ ("grilled_chicken", ⟨165, 31, 0, 36/10, 105/100, 150⟩)
  , ("chicken_breast", ⟨165, 31, 0, 36/10, 105/100, 150⟩)
  , ("salmon", ⟨208, 20, 0, 13, 105/100, 120⟩)
  , ("steak", ⟨271, 25, 0, 19, 105/100, 200⟩)
  , ("rice", ⟨130, 27/10, 28, 3/10, 85/100, 150⟩)
  , ("pasta", ⟨131, 5, 25, 11/10, 9/10, 180⟩)
  , ("bread", ⟨265, 9, 49, 32/10, 4/10, 60⟩)
  , ("potato", ⟨77, 2, 17, 1/10, 11/10, 150⟩)
  , ("broccoli", ⟨55, 37/10, 7, 4/10, 6/10, 100⟩)
  , ("salad", ⟨35, 15/10, 3, 2/10, 3/10, 100⟩)
  , ("carrots", ⟨41, 9/10, 10, 2/10, 6/10, 80⟩)
  , ("default", DEFAULT_FACTS) ]

/-- First-match association-list lookup; models Python dict lookup for the
dicts in this program (whose keys are unique). -/
def alistFind {α : Type} : List (String × α) → String → Option α
  | [], _ => none
  | (k, v) :: rest, s => if s = k then some v else alistFind rest s

/-- Model of `NUTRITION_DATABASE.get(code, NUTRITION_DATABASE['default'])`
(ml_model.py line 302). -/
def dbGet (s : String) : NutritionFacts :=
  (alistFind NUTRITION_DATABASE s).getD DEFAULT_FACTS

/-- Disjunction of all keyword tests of `normalize_food_label`
(ml_model.py lines 255-274). -/
def keywordHit (s : String) : Bool :=
  strContains s "chicken" || strContains s "salmon" || strContains s "fish" ||
  strContains s "beef" || strContains s "steak" || strContains s "rice" ||
  strContains s "pasta" || strContains s "spaghetti" || strContains s "bread" ||
  strContains s "toast" || strContains s "potato" || strContains s "fries" ||
  strContains s "broccoli" || strContains s "salad" || strContains s "lettuce" ||
  strContains s "carrot"

/-- `normalize_food_label` (ml_model.py lines 243-276): exact dict-key match
after lower/underscore normalization, then the ordered keyword rules, else
`"default"`.  The source's local `label_lower` is written `canon label`. -/
def normalize_food_label (label : String) : String :=
  if (alistFind NUTRITION_DATABASE (canon label)).isSome then canon label
  else if strContains (canon label) "chicken" then "grilled_chicken"
  else if strContains (canon label) "salmon" || strContains (canon label) "fish" then "salmon"
  else if strContains (canon label) "beef" || strContains (canon label) "steak" then "steak"
  else if strContains (canon label) "rice" then "rice"
  else if strContains (canon label) "pasta" || strContains (canon label) "spaghetti" then "pasta"
  else if strContains (canon label) "bread" || strContains (canon label) "toast" then "bread"
  else if strContains (canon label) "potato" || strContains (canon label) "fries" then "potato"
  else if strContains (canon label) "broccoli" then "broccoli"
  else if strContains (canon label) "salad" || strContains (canon label) "lettuce" then "salad"
  else if strContains (canon label) "carrot" then "carrots"
  else "default"

/-- `.title()` on a character list: capitalize the first letter of each
alphabetic run, lower-case the rest (the flag marks a word boundary). -/
def titleAux : List Char → Bool → List Char
  | [], _ => []
  | c :: cs, atStart =>
    if c.isAlpha then (if atStart then c.toUpper else c.toLower) :: titleAux cs false
    else c :: titleAux cs true

/-- Python `s.title()`. -/
def titleCase (s : String) : String := String.mk (titleAux s.toList true)

/-- `s.replace('_', ' ')` for the single-character pattern used here. -/
def strReplaceUnderscore (s : String) : String :=
  String.mk (s.toList.map fun c => if c = '_' then ' ' else c)

/-- Display form of a label: `label.replace('_', ' ').title()`
(ml_model.py line 92). -/
def display_form (code : String) : String :=
  titleCase (strReplaceUnderscore code)

/-- One detection dict produced by `FoodDetectionModel.detect_food_items`
(ml_model.py lines 94-98): label, display_name, confidence. -/
structure Detection where
  label : String
  display_name : String
  confidence : ℚ
deriving DecidableEq

/-- One item dict of the result (ml_model.py lines 323-333 and
pipeline.py lines 221-233). -/
structure EstimatedItem where
  name : String
  code : String
  estimated_volume_ml : ℚ
  estimated_weight_g : ℚ
  estimated_calories_kcal : ℚ
  estimated_protein_g : ℚ
  estimated_carbs_g : ℚ
  estimated_fat_g : ℚ
  confidence : ℚ
deriving DecidableEq

/-- Items plus the four totals (ml_model.py lines 335-341). -/
structure MealEstimate where
  items : List EstimatedItem
  total_calories_kcal : ℚ
  total_protein_g : ℚ
  total_carbs_g : ℚ
  total_fat_g : ℚ
deriving DecidableEq

/-- The per-detection body of the loop in `estimate_nutrition`
(ml_model.py lines 295-333); `jit` is that iteration's
`random.uniform(0.8, 1.2)` draw. -/
def mkItem (d : Detection) (jit : ℚ) : EstimatedItem :=
  let nutrition := dbGet (normalize_food_label d.label)
  let serving_g := round1 (nutrition.typical_serving_g * jit)
  let factor := serving_g / 100
  { name := d.display_name
    code := normalize_food_label d.label
    estimated_volume_ml := round1 (serving_g / nutrition.density_g_per_ml)
    estimated_weight_g := serving_g
    estimated_calories_kcal := round1 (nutrition.calories_per_100g * factor)
    estimated_protein_g := round1 (nutrition.protein_per_100g * factor)
    estimated_carbs_g := round1 (nutrition.carbs_per_100g * factor)
    estimated_fat_g := round1 (nutrition.fat_per_100g * factor)
    confidence := round2 d.confidence }

/-- The `items` list built by the loop of `estimate_nutrition`; the counter
`i` indexes the per-iteration jitter draws `j`. -/
def estimate_items : List Detection → (ℕ → ℚ) → ℕ → List EstimatedItem
  | [], _, _ => []
  | d :: ds, j, i => mkItem d (j i) :: estimate_items ds j (i + 1)

/-- The running totals of `estimate_nutrition` (`total_x += x` over the loop,
starting from 0.0). -/
def sumBy (f : EstimatedItem → ℚ) (items : List EstimatedItem) : ℚ :=
  items.foldl (fun acc it => acc + f it) 0

/-- `estimate_nutrition` (ml_model.py lines 279-341). -/
def estimate_nutrition (ds : List Detection) (j : ℕ → ℚ) : MealEstimate :=
  { items := estimate_items ds j 0
    total_calories_kcal := round1 (sumBy (·.estimated_calories_kcal) (estimate_items ds j 0))
    total_protein_g := round1 (sumBy (·.estimated_protein_g) (estimate_items ds j 0))
    total_carbs_g := round1 (sumBy (·.estimated_carbs_g) (estimate_items ds j 0))
    total_fat_g := round1 (sumBy (·.estimated_fat_g) (estimate_items ds j 0)) }

/-- The `candidates` list of `FoodDetectionModel._fallback_detection`
(ml_model.py lines 111-118). -/
def DETECTION_CANDIDATES : List Detection :=
  [ ⟨"grilled_chicken", "Grilled Chicken", 87/100⟩
  , ⟨"rice", "Rice", 82/100⟩
  , ⟨"broccoli", "Broccoli", 78/100⟩
  , ⟨"salad", "Salad", 75/100⟩
  , ⟨"pasta", "Pasta", 73/100⟩
  , ⟨"salmon", "Salmon", 71/100⟩ ]

/-- `_fallback_detection` (ml_model.py lines 106-120): `random.shuffle` is
modelled by taking the shuffled list as an argument, `random.randint(2, 3)`
by the argument `n`; the function returns `candidates[:n]`. -/
def fallback_detection (shuffled : List Detection) (n : ℕ) : List Detection :=
  shuffled.take n

/-- Outcome of one call into the wrapped classifier from
`detect_food_items` (ml_model.py lines 57-104): the model attribute is None
(never initialized), the try-block raises (image decoding or inference), or
the classifier returns a prediction list of (label, score) pairs. -/
inductive ModelOutcome where
  | noModel : ModelOutcome
  | raises : String → ModelOutcome
  | returns : List (String × ℚ) → ModelOutcome
deriving DecidableEq

/-- True on the two failure outcomes that `detect_food_items` recovers from
internally. -/
def modelFailed : ModelOutcome → Bool
  | ModelOutcome.returns _ => false
  | _ => true

/-- `FoodDetectionModel.detect_food_items` (ml_model.py lines 57-104): a
missing model or any exception inside the try-block is answered by
`_fallback_detection`; a normal classifier return is reshaped into
Detection records with `label.replace('_', ' ').title()` as display name.
The function itself never raises. -/
def detect_food_items (m : ModelOutcome) (fbShuffled : List Detection)
    (fbN : ℕ) : List Detection :=
  match m with
  | ModelOutcome.noModel => fallback_detection fbShuffled fbN
  | ModelOutcome.raises _ => fallback_detection fbShuffled fbN
  | ModelOutcome.returns preds =>
      preds.map fun p => ⟨p.1, display_form p.1, p.2⟩

/-- Detection dataclass of pipeline.py (lines 28-31). -/
structure FoodItemDetection where
  label : String
  confidence : ℚ
deriving DecidableEq

/-- `DENSITY_TABLE_G_PER_ML.get(label, 1.0)` (pipeline.py lines 34-39, 103). -/
def density_table_get (label : String) : ℚ :=
  if label = "grilled_chicken_breast" then 105/100
  else if label = "steamed_rice" then 85/100
  else if label = "broccoli" then 6/10
  else if label = "mixed_salad" then 3/10
  else 1

/-- `CALORIE_TABLE_KCAL_PER_100G.get(label, 100.0)` (pipeline.py lines 41-46,
111). -/
def calorie_table_get (label : String) : ℚ :=
  if label = "grilled_chicken_breast" then 165
  else if label = "steamed_rice" then 130
  else if label = "broccoli" then 55
  else if label = "mixed_salad" then 35
  else 100

/-- `DISPLAY_NAMES.get(label, label)` (pipeline.py lines 48-53, 223). -/
def display_names_get (label : String) : String :=
  if label = "grilled_chicken_breast" then "Grilled chicken breast"
  else if label = "steamed_rice" then "Steamed rice"
  else if label = "broccoli" then "Broccoli"
  else if label = "mixed_salad" then "Mixed salad"
  else label

/-- Per-100g protein/carbs/fat triple (pipeline.py lines 56-61). -/
structure MacroNutrients where
  protein_g : ℚ
  carbs_g : ℚ
  fat_g : ℚ
deriving DecidableEq

/-- `MACROS_TABLE_PER_100G.get(label, default)` with the hardcoded default
of protein 5, carbs 10, fat 2 per 100 g (pipeline.py lines 56-61, 123-125). -/
def macros_table_get (label : String) : MacroNutrients :=
  if label = "grilled_chicken_breast" then ⟨31, 0, 36/10⟩
  else if label = "steamed_rice" then ⟨27/10, 28, 3/10⟩
  else if label = "broccoli" then ⟨37/10, 7, 4/10⟩
  else if label = "mixed_salad" then ⟨15/10, 3, 2/10⟩
  else ⟨5, 10, 2⟩

/-- `base_volumes.get(label, 100.0)` (pipeline.py lines 85-93). -/
def base_volume (label : String) : ℚ :=
  if label = "grilled_chicken_breast" then 120
  else if label = "steamed_rice" then 180
  else if label = "broccoli" then 90
  else if label = "mixed_salad" then 150
  else 100

/-- The `candidates` list of `mock_detect_food_items` (pipeline.py
lines 68-73). -/
def MOCK_CANDIDATES : List FoodItemDetection :=
  [ ⟨"grilled_chicken_breast", 78/100⟩
  , ⟨"steamed_rice", 72/100⟩
  , ⟨"broccoli", 68/100⟩
  , ⟨"mixed_salad", 65/100⟩ ]

/-- `mock_detect_food_items` (pipeline.py lines 64-77): shuffle modelled by
the argument, `random.randint(2, 3)` by `n`. -/
def mock_detect_food_items (shuffled : List FoodItemDetection) (n : ℕ) :
    List FoodItemDetection :=
  shuffled.take n

/-- Python dict assignment `m[k] = v`: replace the first entry with key `k`
in place, else append at the end. -/
def dictUpd {α : Type} : List (String × α) → String → α → List (String × α)
  | [], k, v => [(k, v)]
  | (k1, v1) :: rest, k, v =>
      if k1 = k then (k, v) :: rest else (k1, v1) :: dictUpd rest k v

/-- `estimate_volumes_ml` (pipeline.py lines 80-97): one dict assignment per
detection, value `round(base_volume * uniform(0.9, 1.1), 1)`; the counter `i`
indexes the per-iteration jitter draws. -/
def estimate_volumes_ml : List FoodItemDetection → (ℕ → ℚ) → ℕ →
    List (String × ℚ) → List (String × ℚ)
  | [], _, _, acc => acc
  | d :: ds, j, i, acc =>
      estimate_volumes_ml ds j (i + 1)
        (dictUpd acc d.label (round1 (base_volume d.label * j i)))

/-- `convert_volume_to_weight_g` (pipeline.py lines 100-105): a fresh dict
with `round(vol * density, 1)` per entry; keys built by `estimate_volumes_ml`
are unique, so a keywise map models the iteration. -/
def convert_volume_to_weight_g (vols : List (String × ℚ)) : List (String × ℚ) :=
  vols.map fun p => (p.1, round1 (p.2 * density_table_get p.1))

/-- `compute_calories_kcal` (pipeline.py lines 108-113). -/
def compute_calories_kcal (ws : List (String × ℚ)) : List (String × ℚ) :=
  ws.map fun p => (p.1, round1 (p.2 * calorie_table_get p.1 / 100))

/-- `compute_macros_grams` (pipeline.py lines 116-132). -/
def computeMacrosGrams (ws : List (String × ℚ)) : List (String × MacroNutrients) :=
  ws.map fun p =>
    let per100 := macros_table_get p.1
    ⟨p.1, ⟨round1 (per100.protein_g * (p.2 / 100)),
           round1 (per100.carbs_g * (p.2 / 100)),
           round1 (per100.fat_g * (p.2 / 100))⟩⟩

/-- Read a ℚ-valued dict at a key (`d[k]`); in this program the key is
always present, so the 0 default of `getD` is never reached. -/
def qGet (m : List (String × ℚ)) (k : String) : ℚ := (alistFind m k).getD 0

/-- Read the macros dict at a key (`d[k]`), same remark as `qGet`. -/
def mGet (m : List (String × MacroNutrients)) (k : String) : MacroNutrients :=
  (alistFind m k).getD ⟨0, 0, 0⟩

/-- Pipeline metadata record: the version tag and notes; the constant
capability/assumption sub-records of the ML branch are elided. -/
structure PipelineMeta where
  version : String
  notes : String
deriving DecidableEq

/-- Full result record of either pipeline entry point (items, four totals,
pipeline metadata, source.filename). -/
structure PipelineResult where
  items : List EstimatedItem
  total_calories_kcal : ℚ
  total_protein_g : ℚ
  total_carbs_g : ℚ
  total_fat_g : ℚ
  pipeline : PipelineMeta
  source_filename : Option String
deriving DecidableEq

/-- Metadata attached on the primary path (pipeline.py lines 165-179). -/
def ML_PIPELINE_META : PipelineMeta :=
  ⟨"ml-powered-1.0",
   "Real ML-based food recognition using Vision Transformer trained on Food101 dataset."⟩

/-- Metadata attached by the fallback path (pipeline.py lines 241-244). -/
def FALLBACK_META : PipelineMeta :=
  ⟨"fallback-mock-0.1", "Fallback mock pipeline - ML model not available."⟩

/-- The detections local of `run_fallback_pipeline` (pipeline.py line 198). -/
def fb_detections (sh : List FoodItemDetection) (n : ℕ) : List FoodItemDetection :=
  mock_detect_food_items sh n

/-- The volumes local (pipeline.py line 199). -/
def fb_vols (sh : List FoodItemDetection) (n : ℕ) (j : ℕ → ℚ) : List (String × ℚ) :=
  estimate_volumes_ml (fb_detections sh n) j 0 []

/-- The weights local (pipeline.py line 200). -/
def fb_ws (sh : List FoodItemDetection) (n : ℕ) (j : ℕ → ℚ) : List (String × ℚ) :=
  convert_volume_to_weight_g (fb_vols sh n j)

/-- The calories local (pipeline.py line 201). -/
def fb_cals (sh : List FoodItemDetection) (n : ℕ) (j : ℕ → ℚ) : List (String × ℚ) :=
  compute_calories_kcal (fb_ws sh n j)

/-- The macros local (pipeline.py line 202). -/
def fb_macs (sh : List FoodItemDetection) (n : ℕ) (j : ℕ → ℚ) :
    List (String × MacroNutrients) :=
  computeMacrosGrams (fb_ws sh n j)

/-- The per-detection item dict of the loop in `run_fallback_pipeline`
(pipeline.py lines 210-233): every field is a lookup at `det.label`. -/
def fallbackItem (vols ws cals : List (String × ℚ))
    (macs : List (String × MacroNutrients)) (det : FoodItemDetection) :
    EstimatedItem :=
  { name := display_names_get det.label
    code := det.label
    estimated_volume_ml := qGet vols det.label
    estimated_weight_g := qGet ws det.label
    estimated_calories_kcal := qGet cals det.label
    estimated_protein_g := (mGet macs det.label).protein_g
    estimated_carbs_g := (mGet macs det.label).carbs_g
    estimated_fat_g := (mGet macs det.label).fat_g
    confidence := round2 det.confidence }

/-- The items list of `run_fallback_pipeline`. -/
def fb_items (sh : List FoodItemDetection) (n : ℕ) (j : ℕ → ℚ) :
    List EstimatedItem :=
  (fb_detections sh n).map
    (fallbackItem (fb_vols sh n j) (fb_ws sh n j) (fb_cals sh n j) (fb_macs sh n j))

/-- `run_fallback_pipeline` (pipeline.py lines 193-246).  The accumulated
totals equal the fold of the corresponding item fields because each item
field is exactly the looked-up per-label value. -/
def run_fallback_pipeline (sh : List FoodItemDetection) (n : ℕ) (j : ℕ → ℚ)
    (filename : Option String) : PipelineResult :=
  { items := fb_items sh n j
    total_calories_kcal := round1 (sumBy (·.estimated_calories_kcal) (fb_items sh n j))
    total_protein_g := round1 (sumBy (·.estimated_protein_g) (fb_items sh n j))
    total_carbs_g := round1 (sumBy (·.estimated_carbs_g) (fb_items sh n j))
    total_fat_g := round1 (sumBy (·.estimated_fat_g) (fb_items sh n j))
    pipeline := FALLBACK_META
    source_filename := filename }

/-- `run_baseline_pipeline` (pipeline.py lines 135-190).  The try-block is
modelled by `primary`: `Except.ok ds` is the detection list the orchestrator
obtained (in the source `detect_food_items` itself never raises, and
`estimate_nutrition` is total); `Except.error` models any exception escaping
into the orchestrator's handler, which answers with the mock fallback
pipeline.  The function never raises: it is total and always returns a
PipelineResult. -/
def run_baseline_pipeline (primary : Except String (List Detection))
    (j : ℕ → ℚ) (fbSh : List FoodItemDetection) (fbN : ℕ) (fbJ : ℕ → ℚ)
    (filename : Option String) : PipelineResult :=
  match primary with
  | Except.ok ds =>
      { items := (estimate_nutrition ds j).items
        total_calories_kcal := (estimate_nutrition ds j).total_calories_kcal
        total_protein_g := (estimate_nutrition ds j).total_protein_g
        total_carbs_g := (estimate_nutrition ds j).total_carbs_g
        total_fat_g := (estimate_nutrition ds j).total_fat_g
        pipeline := ML_PIPELINE_META
        source_filename := filename }
  | Except.error _ => run_fallback_pipeline fbSh fbN fbJ filename

/-- The composition actually executed on the primary path: the orchestrator
receives whatever `detect_food_items` returns (it catches its own errors
internally, so the orchestrator sees a normal return). -/
def run_pipeline_with_model (m : ModelOutcome) (dSh : List Detection)
    (dN : ℕ) (j : ℕ → ℚ) (fbSh : List FoodItemDetection) (fbN : ℕ)
    (fbJ : ℕ → ℚ) (filename : Option String) : PipelineResult :=
  run_baseline_pipeline (Except.ok (detect_food_items m dSh dN)) j fbSh fbN fbJ filename

/-- Evaluate `round1` at a concrete point: if the integer `z` brackets
`10*x + 1/2` then `round1 x = z/10`. -/
lemma round1_eq (x : ℚ) (z : ℤ) (h1 : (z : ℚ) ≤ 10 * x + 1/2)
    (h2 : 10 * x + 1/2 < z + 1) : round1 x = (z : ℚ) / 10 := by
  unfold round1
  rw [Int.floor_eq_iff.mpr ⟨h1, by exact_mod_cast h2⟩]

/-- Lower bound transfer for `round1`: an integer lower bound on `10*x`
yields the matching lower bound on `round1 x`. -/
lemma int_div_le_round1 (x : ℚ) (z : ℤ) (h : (z : ℚ) ≤ 10 * x) :
    (z : ℚ) / 10 ≤ round1 x := by
  unfold round1
  have hz : (z : ℚ) ≤ (⌊10 * x + 1/2⌋ : ℚ) := by
    exact_mod_cast Int.le_floor.mpr (by linarith)
  linarith

/-- `round1` preserves non-negativity. -/
lemma round1_nonneg (x : ℚ) (h : 0 ≤ x) : 0 ≤ round1 x := by
  have := int_div_le_round1 x 0 (by push_cast; linarith)
  simpa using this

/-- `round1` of anything at least one tenth is positive. -/
lemma round1_pos (x : ℚ) (h : 1/10 ≤ x) : 0 < round1 x := by
  have := int_div_le_round1 x 1 (by push_cast; linarith)
  push_cast at this
  linarith

/-- A rational with at most one decimal digit. -/
def isTenth (x : ℚ) : Prop := ∃ z : ℤ, x = (z : ℚ) / 10

/-- `round1` always lands on a one-decimal value. -/
lemma round1_isTenth (x : ℚ) : isTenth (round1 x) := ⟨⌊10 * x + 1/2⌋, rfl⟩

/-- `round1` is the identity on one-decimal values. -/
lemma round1_fix (x : ℚ) (h : isTenth x) : round1 x = x := by
  obtain ⟨z, rfl⟩ := h
  unfold round1
  have hfl : ⌊10 * ((z : ℚ) / 10) + 1/2⌋ = z := by
    rw [Int.floor_eq_iff]
    constructor
    · linarith
    · linarith
  rw [hfl]

/-- Sums of one-decimal values are one-decimal values. -/
lemma sum_isTenth (l : List ℚ) (h : ∀ x ∈ l, isTenth x) : isTenth l.sum := by
  induction l with
  | nil => exact ⟨0, by norm_num⟩
  | cons x xs ih =>
    obtain ⟨z1, hz1⟩ := h x (List.mem_cons_self x xs)
    obtain ⟨z2, hz2⟩ := ih fun y hy => h y (List.mem_cons_of_mem x hy)
    refine ⟨z1 + z2, ?_⟩
    rw [List.sum_cons, hz1, hz2]
    push_cast
    ring

/-- The running accumulation equals the sum of the projected fields. -/
lemma foldl_add_eq (f : EstimatedItem → ℚ) (l : List EstimatedItem) (a : ℚ) :
    l.foldl (fun acc it => acc + f it) a = a + (l.map f).sum := by
  induction l generalizing a with
  | nil => simp
  | cons x xs ih => simp [ih, add_assoc]

/-- `sumBy f` is the sum of the mapped field. -/
lemma sumBy_eq (f : EstimatedItem → ℚ) (l : List EstimatedItem) :
    sumBy f l = (l.map f).sum := by
  simpa using foldl_add_eq f l 0

/-- `estimate_items` produces one item per detection. -/
lemma estimate_items_length (ds : List Detection) (j : ℕ → ℚ) (i : ℕ) :
    (estimate_items ds j i).length = ds.length := by
  induction ds generalizing i with
  | nil => rfl
  | cons d rest ih => simp [estimate_items, ih]

/-- Pointwise description of `estimate_items`: the k-th item comes from the
k-th detection with the (i+k)-th jitter draw. -/
lemma estimate_items_get (ds : List Detection) (j : ℕ → ℚ) (i k : ℕ) :
    (estimate_items ds j i).get? k = (ds.get? k).map fun d => mkItem d (j (i + k)) := by
  induction ds generalizing i k with
  | nil => simp [estimate_items]
  | cons d rest ih =>
    cases k with
    | zero => simp [estimate_items]
    | succ k =>
      simp only [estimate_items, List.get?_cons_succ, ih]
      have : i + 1 + k = i + (k + 1) := by omega
      rw [this]

/-- Every member of `estimate_items` is an `mkItem` of some detection and
jitter draw. -/
lemma estimate_items_mem (P : EstimatedItem → Prop) (j : ℕ → ℚ)
    (h : ∀ d t, P (mkItem d (j t))) :
    ∀ (ds : List Detection) (i : ℕ), ∀ it ∈ estimate_items ds j i, P it := by
  intro ds
  induction ds with
  | nil => intro i it hit; simp [estimate_items] at hit
  | cons d rest ih =>
    intro i it hit
    rcases List.mem_cons.mp hit with h0 | h0
    · rw [h0]; exact h d i
    · exact ih (i + 1) it h0

/-- First-match lookup only returns stored values. -/
lemma alistFind_mem {α : Type} (l : List (String × α)) (s : String) (v : α)
    (h : alistFind l s = some v) : v ∈ l.map Prod.snd := by
  induction l with
  | nil => simp [alistFind] at h
  | cons p rest ih =>
    obtain ⟨k1, v1⟩ := p
    by_cases hk : s = k1
    · simp [alistFind, hk] at h
      simp [h]
    · simp only [alistFind, if_neg hk] at h
      simp [ih h]

/-- Lookup through a key-preserving value map. -/
lemma alistFind_mapVal {α β : Type} (g : String → α → β)
    (l : List (String × α)) (k : String) :
    alistFind (l.map fun p => (p.1, g p.1 p.2)) k = (alistFind l k).map (g k) := by
  induction l with
  | nil => rfl
  | cons p rest ih =>
    obtain ⟨k1, v1⟩ := p
    by_cases hk : k = k1
    · subst hk
      simp [alistFind]
    · simp [alistFind, hk, ih]

/-- Dict assignment then lookup: the assigned key reads the new value, all
others are unchanged. -/
lemma alistFind_dictUpd {α : Type} (m : List (String × α)) (k s : String) (v : α) :
    alistFind (dictUpd m k v) s = if s = k then some v else alistFind m s := by
  induction m with
  | nil => simp [dictUpd, alistFind]
  | cons p rest ih =>
    obtain ⟨k1, v1⟩ := p
    by_cases h1 : k1 = k
    · subst h1
      by_cases h2 : s = k1 <;> simp [dictUpd, alistFind, h2]
    · by_cases h2 : s = k1
      · subst h2
        simp [dictUpd, alistFind, h1]
      · simp [dictUpd, alistFind, h1, h2, ih]

/-- Every reference row reachable through `dbGet` (the twelve table rows or
the default) has non-negative nutrients, positive density, and a typical
serving of at least one gram. -/
lemma dbGet_bounds (s : String) :
    0 ≤ (dbGet s).calories_per_100g ∧ 0 ≤ (dbGet s).protein_per_100g ∧
    0 ≤ (dbGet s).carbs_per_100g ∧ 0 ≤ (dbGet s).fat_per_100g ∧
    0 < (dbGet s).density_g_per_ml ∧ 1 ≤ (dbGet s).typical_serving_g := by
  unfold dbGet
  cases h : alistFind NUTRITION_DATABASE s with
  | none => simp [DEFAULT_FACTS]
  | some f =>
    have hmem := alistFind_mem NUTRITION_DATABASE s f h
    simp only [NUTRITION_DATABASE, DEFAULT_FACTS, List.map_cons, List.map_nil,
      List.mem_cons, List.not_mem_nil, or_false] at hmem
    simp only [Option.getD_some]
    rcases hmem with rfl | rfl | rfl | rfl | rfl | rfl | rfl | rfl | rfl | rfl | rfl | rfl <;>
      exact ⟨by norm_num, by norm_num, by norm_num, by norm_num, by norm_num, by norm_num⟩

/-- Every entry of the mock base-volume table, including the default, is at
least 90 ml. -/
lemma base_volume_ge (l : String) : (90 : ℚ) ≤ base_volume l := by
  unfold base_volume
  split_ifs <;> norm_num

/-- Every entry of the mock density table, including the default, is at
least 0.3 g/ml. -/
lemma density_table_ge (l : String) : (3/10 : ℚ) ≤ density_table_get l := by
  unfold density_table_get
  split_ifs <;> norm_num

/-- Every entry of the mock calorie table, including the default, is
non-negative. -/
lemma calorie_table_nonneg (l : String) : (0 : ℚ) ≤ calorie_table_get l := by
  unfold calorie_table_get
  split_ifs <;> norm_num

/-- Every entry of the mock macros table, including the default, is
componentwise non-negative. -/
lemma macros_table_nonneg (l : String) :
    0 ≤ (macros_table_get l).protein_g ∧ 0 ≤ (macros_table_get l).carbs_g ∧
    0 ≤ (macros_table_get l).fat_g := by
  unfold macros_table_get
  split_ifs <;> exact ⟨by norm_num, by norm_num, by norm_num⟩

/-- Every value stored by `estimate_volumes_ml` is at least 81 ml when the
jitter draws stay at or above 0.9. -/
lemma volumes_value_ge (j : ℕ → ℚ) (hj : ∀ t, 9/10 ≤ j t) :
    ∀ (ds : List FoodItemDetection) (i : ℕ) (acc : List (String × ℚ)),
      (∀ k v, alistFind acc k = some v → (81 : ℚ) ≤ v) →
      ∀ k v, alistFind (estimate_volumes_ml ds j i acc) k = some v → (81 : ℚ) ≤ v := by
  intro ds
  induction ds with
  | nil => intro i acc hacc k v hkv; exact hacc k v hkv
  | cons d rest ih =>
    intro i acc hacc k v hkv
    refine ih (i + 1) _ ?_ k v hkv
    intro k1 v1 h1
    rw [alistFind_dictUpd] at h1
    by_cases hk : k1 = d.label
    · rw [if_pos hk] at h1
      injection h1 with hv
      subst hv
      have hb := base_volume_ge d.label
      have hji := hj i
      have hx : (81 : ℚ) ≤ base_volume d.label * j i := by nlinarith
      have := int_div_le_round1 (base_volume d.label * j i) 810 (by push_cast; linarith)
      push_cast at this
      linarith
    · rw [if_neg hk] at h1
      exact hacc k1 v1 h1

/-- After `estimate_volumes_ml`, every processed label (and every key already
present) has an entry. -/
lemma volumes_key_isSome (j : ℕ → ℚ) :
    ∀ (ds : List FoodItemDetection) (i : ℕ) (acc : List (String × ℚ)) (key : String),
      (key ∈ ds.map (fun d => d.label) ∨ (alistFind acc key).isSome = true) →
      (alistFind (estimate_volumes_ml ds j i acc) key).isSome = true := by
  intro ds
  induction ds with
  | nil =>
    intro i acc key h
    rcases h with h | h
    · simp at h
    · exact h
  | cons d rest ih =>
    intro i acc key h
    refine ih (i + 1) _ key ?_
    rcases h with h | h
    · simp only [List.map_cons, List.mem_cons] at h
      rcases h with h0 | h0
      · right
        rw [alistFind_dictUpd, if_pos h0]
        rfl
      · left
        exact h0
    · by_cases hk : key = d.label
      · right
        rw [alistFind_dictUpd, if_pos hk]
        rfl
      · right
        rw [alistFind_dictUpd, if_neg hk]
        exact h

/-- `estimate_volumes_ml` does not touch keys outside the processed labels. -/
lemma volumes_untouched (j : ℕ → ℚ) :
    ∀ (ds : List FoodItemDetection) (i : ℕ) (acc : List (String × ℚ)) (key : String),
      key ∉ ds.map (fun d => d.label) →
      alistFind (estimate_volumes_ml ds j i acc) key = alistFind acc key := by
  intro ds
  induction ds with
  | nil => intro i acc key _; rfl
  | cons d rest ih =>
    intro i acc key h
    have h1 : key ≠ d.label := by
      intro hc
      exact h (by simp [hc])
    have h2 : key ∉ rest.map (fun d => d.label) := by
      intro hc
      exact h (by simp [hc])
    rw [show estimate_volumes_ml (d :: rest) j i acc
          = estimate_volumes_ml rest j (i + 1)
              (dictUpd acc d.label (round1 (base_volume d.label * j i))) from rfl]
    rw [ih (i + 1) _ key h2, alistFind_dictUpd, if_neg h1]

/-- With pairwise-distinct labels, the volume stored for the k-th detection
is exactly its own jittered base volume. -/
lemma volumes_get_nodup (j : ℕ → ℚ) :
    ∀ (ds : List FoodItemDetection) (i : ℕ) (acc : List (String × ℚ)),
      (ds.map (fun d => d.label)).Nodup →
      ∀ (k : ℕ) (d : FoodItemDetection), ds.get? k = some d →
        alistFind (estimate_volumes_ml ds j i acc) d.label
          = some (round1 (base_volume d.label * j (i + k))) := by
  intro ds
  induction ds with
  | nil => intro i acc _ k d hk; simp at hk
  | cons e rest ih =>
    intro i acc hnd k d hk
    rw [List.map_cons] at hnd
    have hnd1 : e.label ∉ rest.map (fun d => d.label) := (List.nodup_cons.mp hnd).1
    have hnd2 : (rest.map (fun d => d.label)).Nodup := (List.nodup_cons.mp hnd).2
    cases k with
    | zero =>
      obtain rfl : e = d := by simpa using hk
      rw [show estimate_volumes_ml (e :: rest) j i acc
            = estimate_volumes_ml rest j (i + 1)
                (dictUpd acc e.label (round1 (base_volume e.label * j i))) from rfl]
      rw [volumes_untouched j rest (i + 1) _ e.label hnd1,
        alistFind_dictUpd, if_pos rfl]
      rw [Nat.add_zero]
    | succ k =>
      have hk1 : rest.get? k = some d := by simpa using hk
      have := ih (i + 1) (dictUpd acc e.label (round1 (base_volume e.label * j i)))
        hnd2 k d hk1
      rw [show estimate_volumes_ml (e :: rest) j i acc
            = estimate_volumes_ml rest j (i + 1)
                (dictUpd acc e.label (round1 (base_volume e.label * j i))) from rfl]
      rw [this, show i + 1 + k = i + (k + 1) from by omega]

/-- Field equation: an item's code is the normalized detection label
(ml_model.py line 325). -/
lemma mkItem_code (d : Detection) (jit : ℚ) :
    (mkItem d jit).code = normalize_food_label d.label := rfl

/-- Field equation: an item's name is the detection's display name. -/
lemma mkItem_name (d : Detection) (jit : ℚ) :
    (mkItem d jit).name = d.display_name := rfl

/-- Field equation: the weight is the jittered typical serving rounded to
one decimal (ml_model.py line 306). -/
lemma mkItem_weight (d : Detection) (jit : ℚ) :
    (mkItem d jit).estimated_weight_g
      = round1 ((dbGet (normalize_food_label d.label)).typical_serving_g * jit) := rfl

/-- Field equation: the volume is weight over density rounded to one
decimal (ml_model.py line 316). -/
lemma mkItem_volume (d : Detection) (jit : ℚ) :
    (mkItem d jit).estimated_volume_ml
      = round1 ((mkItem d jit).estimated_weight_g
          / (dbGet (normalize_food_label d.label)).density_g_per_ml) := rfl

/-- Field equation: calories scale per-100g values by the weight factor
(ml_model.py lines 309-310). -/
lemma mkItem_calories (d : Detection) (jit : ℚ) :
    (mkItem d jit).estimated_calories_kcal
      = round1 ((dbGet (normalize_food_label d.label)).calories_per_100g
          * ((mkItem d jit).estimated_weight_g / 100)) := rfl

/-- Field equation for protein (ml_model.py line 311). -/
lemma mkItem_protein (d : Detection) (jit : ℚ) :
    (mkItem d jit).estimated_protein_g
      = round1 ((dbGet (normalize_food_label d.label)).protein_per_100g
          * ((mkItem d jit).estimated_weight_g / 100)) := rfl

/-- Field equation for carbs (ml_model.py line 312). -/
lemma mkItem_carbs (d : Detection) (jit : ℚ) :
    (mkItem d jit).estimated_carbs_g
      = round1 ((dbGet (normalize_food_label d.label)).carbs_per_100g
          * ((mkItem d jit).estimated_weight_g / 100)) := rfl

/-- Field equation for fat (ml_model.py line 313). -/
lemma mkItem_fat (d : Detection) (jit : ℚ) :
    (mkItem d jit).estimated_fat_g
      = round1 ((dbGet (normalize_food_label d.label)).fat_per_100g
          * ((mkItem d jit).estimated_weight_g / 100)) := rfl

/-- Lookup in the weights dict is the rounded density scaling of the volume
entry. -/
lemma find_weights (vols : List (String × ℚ)) (k : String) :
    alistFind (convert_volume_to_weight_g vols) k
      = (alistFind vols k).map fun v => round1 (v * density_table_get k) :=
  alistFind_mapVal (fun k v => round1 (v * density_table_get k)) vols k

/-- Lookup in the calories dict is the rounded calorie scaling of the weight
entry. -/
lemma find_cals (ws : List (String × ℚ)) (k : String) :
    alistFind (compute_calories_kcal ws) k
      = (alistFind ws k).map fun w => round1 (w * calorie_table_get k / 100) :=
  alistFind_mapVal (fun k w => round1 (w * calorie_table_get k / 100)) ws k

/-- Lookup in the macros dict is the rounded macro scaling of the weight
entry. -/
lemma find_macs (ws : List (String × ℚ)) (k : String) :
    alistFind (computeMacrosGrams ws) k
      = (alistFind ws k).map fun w =>
          (⟨round1 ((macros_table_get k).protein_g * (w / 100)),
            round1 ((macros_table_get k).carbs_g * (w / 100)),
            round1 ((macros_table_get k).fat_g * (w / 100))⟩ : MacroNutrients) :=
  alistFind_mapVal (fun k w =>
    (⟨round1 ((macros_table_get k).protein_g * (w / 100)),
      round1 ((macros_table_get k).carbs_g * (w / 100)),
      round1 ((macros_table_get k).fat_g * (w / 100))⟩ : MacroNutrients)) ws k

/-- `round1` fixes zero. -/
lemma round1_zero : round1 0 = 0 := by
  rw [round1_eq 0 0 (by norm_num) (by norm_num)]
  norm_num

/-- Claim C1: for every primary-path outcome and optional filename,
`run_baseline_pipeline` is total (it is a Lean function into
`PipelineResult`, whose record shape carries the items sequence, the four
totals, the pipeline metadata record and the source filename), the filename
is passed through unchanged, any error at the orchestrator boundary is
answered by the mock fallback pipeline, and the metadata is always one of
the two well-formed metadata records. -/
theorem C1_pipeline_total_and_fallback :
    ∀ (primary : Except String (List Detection)) (j : ℕ → ℚ)
      (fbSh : List FoodItemDetection) (fbN : ℕ) (fbJ : ℕ → ℚ) (fn : Option String),
      (run_baseline_pipeline primary j fbSh fbN fbJ fn).source_filename = fn ∧
      (∀ e, primary = Except.error e →
        run_baseline_pipeline primary j fbSh fbN fbJ fn
          = run_fallback_pipeline fbSh fbN fbJ fn) ∧
      ((run_baseline_pipeline primary j fbSh fbN fbJ fn).pipeline = ML_PIPELINE_META ∨
        (run_baseline_pipeline primary j fbSh fbN fbJ fn).pipeline = FALLBACK_META) := by
  intro primary j fbSh fbN fbJ fn
  cases primary with
  | ok ds => exact ⟨rfl, fun e he => Except.noConfusion he, Or.inl rfl⟩
  | error e => exact ⟨rfl, fun e2 he => rfl, Or.inr rfl⟩

/-- Witness for C1 at a concrete erroring primary path. -/
theorem C1_pipeline_total_and_fallback_witness :
    (run_baseline_pipeline (Except.error "boom") (fun _ => 1) MOCK_CANDIDATES 2
        (fun _ => 1) (some "meal.jpg")).source_filename = some "meal.jpg" ∧
    run_baseline_pipeline (Except.error "boom") (fun _ => 1) MOCK_CANDIDATES 2
        (fun _ => 1) (some "meal.jpg")
      = run_fallback_pipeline MOCK_CANDIDATES 2 (fun _ => 1) (some "meal.jpg") :=
  ⟨(C1_pipeline_total_and_fallback (Except.error "boom") (fun _ => 1) MOCK_CANDIDATES 2
      (fun _ => 1) (some "meal.jpg")).1,
   (C1_pipeline_total_and_fallback (Except.error "boom") (fun _ => 1) MOCK_CANDIDATES 2
      (fun _ => 1) (some "meal.jpg")).2.1 "boom" rfl⟩

/-- Counterexample to claim C4: when the primary path returns zero
detections the orchestrator does not fall back — the result has zero items,
the ML-powered version tag, and zero totals, contradicting the claimed 2-3
items with nonzero totals from the mock path. -/
theorem C4_cex :
    (run_baseline_pipeline (Except.ok []) (fun _ => 1) MOCK_CANDIDATES 2
        (fun _ => 1) none).items = [] ∧
    (run_baseline_pipeline (Except.ok []) (fun _ => 1) MOCK_CANDIDATES 2
        (fun _ => 1) none).pipeline.version = "ml-powered-1.0" ∧
    (run_baseline_pipeline (Except.ok []) (fun _ => 1) MOCK_CANDIDATES 2
        (fun _ => 1) none).total_calories_kcal = 0 := by
  refine ⟨rfl, rfl, ?_⟩
  show round1 0 = 0
  exact round1_zero

/-- Claim C4 as amended: on an empty detection list the orchestrator stays
on the primary path and returns the empty MealEstimate with zero totals
under the ML-powered metadata, passing the filename through. -/
theorem C4_empty_detections_amended :
    ∀ (j : ℕ → ℚ) (fbSh : List FoodItemDetection) (fbN : ℕ) (fbJ : ℕ → ℚ)
      (fn : Option String),
      run_baseline_pipeline (Except.ok []) j fbSh fbN fbJ fn
        = ⟨[], 0, 0, 0, 0, ML_PIPELINE_META, fn⟩ := by
  intro j fbSh fbN fbJ fn
  show PipelineResult.mk [] (round1 0) (round1 0) (round1 0) (round1 0) ML_PIPELINE_META fn
      = PipelineResult.mk [] 0 0 0 0 ML_PIPELINE_META fn
  rw [round1_zero]

set_option maxHeartbeats 1600000 in
/-- Claim C5: the normalizer always lands on a key of the nutrition table;
with no exact match and no keyword hit it returns "default". -/
theorem C5_normalize_coverage :
    ∀ label : String,
      (alistFind NUTRITION_DATABASE (normalize_food_label label)).isSome = true ∧
      ((alistFind NUTRITION_DATABASE (canon label)).isNone = true →
        keywordHit (canon label) = false → normalize_food_label label = "default") := by
  intro label
  constructor
  · unfold normalize_food_label
    split_ifs with h1 h2 h3 h4 h5 h6 h7 h8 h9 h10 h11
    · exact h1
    all_goals decide
  · intro hnone hkw
    have h1 : (alistFind NUTRITION_DATABASE (canon label)).isSome = false := by
      rw [Option.isNone_iff_eq_none.mp hnone]
      rfl
    unfold normalize_food_label
    split_ifs with g1 g2 g3 g4 g5 g6 g7 g8 g9 g10 g11
    · rw [g1] at h1
      exact absurd h1 (by decide)
    · simp [keywordHit, g2] at hkw
    · simp only [Bool.or_eq_true] at g3
      rcases g3 with g | g <;> simp [keywordHit, g] at hkw
    · simp only [Bool.or_eq_true] at g4
      rcases g4 with g | g <;> simp [keywordHit, g] at hkw
    · simp [keywordHit, g5] at hkw
    · simp only [Bool.or_eq_true] at g6
      rcases g6 with g | g <;> simp [keywordHit, g] at hkw
    · simp only [Bool.or_eq_true] at g7
      rcases g7 with g | g <;> simp [keywordHit, g] at hkw
    · simp only [Bool.or_eq_true] at g8
      rcases g8 with g | g <;> simp [keywordHit, g] at hkw
    · simp [keywordHit, g9] at hkw
    · simp only [Bool.or_eq_true] at g10
      rcases g10 with g | g <;> simp [keywordHit, g] at hkw
    · simp [keywordHit, g11] at hkw
    · rfl

/-- Witness for C5 at the concrete no-match input "xyzzy". -/
theorem C5_normalize_coverage_witness :
    (alistFind NUTRITION_DATABASE (normalize_food_label "xyzzy")).isSome = true ∧
    normalize_food_label "xyzzy" = "default" :=
  ⟨(C5_normalize_coverage "xyzzy").1,
   (C5_normalize_coverage "xyzzy").2 (by decide) (by decide)⟩

/-- Counterexample to claim C6: the table key "chicken_breast", sent through
its display form "Chicken Breast", normalizes to "grilled_chicken" (the
keyword rule for "chicken" fires first), so the display round trip is not
the identity on the whole key set. -/
theorem C6_cex :
    normalize_food_label (display_form "chicken_breast") = "grilled_chicken" ∧
    normalize_food_label (display_form "chicken_breast") ≠ "chicken_breast" := by
  exact ⟨by decide, by decide⟩

/-- Claim C6 as amended: for every code of the nutrition table except
"chicken_breast", normalizing the display form resolves back to that same
code. -/
theorem C6_display_roundtrip_amended :
    ∀ code : String, code ∈ NUTRITION_DATABASE.map Prod.fst →
      code ≠ "chicken_breast" →
      normalize_food_label (display_form code) = code := by
  intro code hmem hne
  simp only [NUTRITION_DATABASE, List.map_cons, List.map_nil, List.mem_cons,
    List.not_mem_nil, or_false] at hmem
  rcases hmem with rfl | rfl | rfl | rfl | rfl | rfl | rfl | rfl | rfl | rfl | rfl | rfl
  all_goals first | exact absurd rfl hne | decide

/-- Witness for C6 at the concrete code "rice". -/
theorem C6_display_roundtrip_amended_witness :
    normalize_food_label (display_form "rice") = "rice" :=
  C6_display_roundtrip_amended "rice" (by decide) (by decide)

/-- Counterexample to claim C3: when the detection call raises, the error is
recovered inside `detect_food_items`, so the pipeline metadata carries the
ML-powered version tag, not the fallback/mock tag the claim requires. -/
theorem C3_cex :
    (run_pipeline_with_model (ModelOutcome.raises "cannot identify image")
        DETECTION_CANDIDATES 2 (fun _ => 1) MOCK_CANDIDATES 2 (fun _ => 1)
        none).pipeline.version = "ml-powered-1.0" ∧
    (run_pipeline_with_model (ModelOutcome.raises "cannot identify image")
        DETECTION_CANDIDATES 2 (fun _ => 1) MOCK_CANDIDATES 2 (fun _ => 1)
        none).pipeline.version ≠ "fallback-mock-0.1" :=
  ⟨rfl, by decide⟩

/-- Claim C3 as amended: when the detection capability raises during
invocation or was never initialized, the pipeline still returns 2-3 items
(one per mock detection), but the version tag is the ML-powered one —
the fallback tag appears only when an error reaches the orchestrator's own
handler. -/
theorem C3_detection_failure_amended :
    ∀ (m : ModelOutcome), modelFailed m = true →
    ∀ (dSh : List Detection) (dN : ℕ), dSh.length = 6 → 2 ≤ dN → dN ≤ 3 →
    ∀ (j : ℕ → ℚ) (fbSh : List FoodItemDetection) (fbN : ℕ) (fbJ : ℕ → ℚ)
      (fn : Option String),
      (run_pipeline_with_model m dSh dN j fbSh fbN fbJ fn).items.length = dN ∧
      2 ≤ (run_pipeline_with_model m dSh dN j fbSh fbN fbJ fn).items.length ∧
      (run_pipeline_with_model m dSh dN j fbSh fbN fbJ fn).items.length ≤ 3 ∧
      (run_pipeline_with_model m dSh dN j fbSh fbN fbJ fn).pipeline.version
        = "ml-powered-1.0" := by
  intro m hm dSh dN hlen h2 h3 j fbSh fbN fbJ fn
  have hdet : detect_food_items m dSh dN = dSh.take dN := by
    cases m with
    | noModel => rfl
    | raises e => rfl
    | returns p => simp [modelFailed] at hm
  have hitems : (run_pipeline_with_model m dSh dN j fbSh fbN fbJ fn).items
      = estimate_items (detect_food_items m dSh dN) j 0 := rfl
  have hlen2 : (run_pipeline_with_model m dSh dN j fbSh fbN fbJ fn).items.length = dN := by
    rw [hitems, estimate_items_length, hdet, List.length_take, hlen]
    omega
  refine ⟨hlen2, by omega, by omega, rfl⟩

/-- Witness for C3's amended statement with an uninitialized model. -/
theorem C3_detection_failure_amended_witness :
    (run_pipeline_with_model ModelOutcome.noModel DETECTION_CANDIDATES 3 (fun _ => 1)
        MOCK_CANDIDATES 2 (fun _ => 1) none).items.length = 3 ∧
    (run_pipeline_with_model ModelOutcome.noModel DETECTION_CANDIDATES 3 (fun _ => 1)
        MOCK_CANDIDATES 2 (fun _ => 1) none).pipeline.version = "ml-powered-1.0" :=
  ⟨(C3_detection_failure_amended ModelOutcome.noModel rfl DETECTION_CANDIDATES 3 rfl
      (by norm_num) (by norm_num) (fun _ => 1) MOCK_CANDIDATES 2 (fun _ => 1) none).1,
   (C3_detection_failure_amended ModelOutcome.noModel rfl DETECTION_CANDIDATES 3 rfl
      (by norm_num) (by norm_num) (fun _ => 1) MOCK_CANDIDATES 2 (fun _ => 1) none).2.2.2⟩

/-- Claim C10: `detect_food_items` is total at the pipeline boundary — on a
missing model or any internal exception it answers with n mock detections
(2-3 of them) drawn without replacement from the fixed six-candidate set,
and the orchestrator then labels the result with the ML-powered version. -/
theorem C10_detect_food_items_total :
    ∀ (m : ModelOutcome), modelFailed m = true →
    ∀ (sh : List Detection), sh.Perm DETECTION_CANDIDATES →
    ∀ (n : ℕ), 2 ≤ n → n ≤ 3 →
      (detect_food_items m sh n).length = n ∧
      (∀ d ∈ detect_food_items m sh n, d ∈ DETECTION_CANDIDATES) ∧
      (detect_food_items m sh n).Nodup ∧
      (∀ (j : ℕ → ℚ) (fbSh : List FoodItemDetection) (fbN : ℕ) (fbJ : ℕ → ℚ)
        (fn : Option String),
        (run_baseline_pipeline (Except.ok (detect_food_items m sh n)) j fbSh fbN fbJ
            fn).pipeline.version = "ml-powered-1.0") := by
  intro m hm sh hperm n h2 h3
  have hdet : detect_food_items m sh n = sh.take n := by
    cases m with
    | noModel => rfl
    | raises e => rfl
    | returns p => simp [modelFailed] at hm
  have hlen6 : sh.length = 6 := by rw [hperm.length_eq]; rfl
  refine ⟨?_, ?_, ?_, ?_⟩
  · rw [hdet, List.length_take, hlen6]
    omega
  · intro d hd
    rw [hdet] at hd
    exact hperm.mem_iff.mp (List.take_subset n sh hd)
  · rw [hdet]
    have hmapnd : (DETECTION_CANDIDATES.map (fun d => d.label)).Nodup := by decide
    have hcand : DETECTION_CANDIDATES.Nodup := hmapnd.of_map
    have hnd : sh.Nodup := hperm.nodup_iff.mpr hcand
    exact hnd.sublist (List.take_sublist n sh)
  · intro j fbSh fbN fbJ fn
    rfl

/-- Witness for C10 with a raising model over the identity shuffle. -/
theorem C10_detect_food_items_total_witness :
    (detect_food_items (ModelOutcome.raises "boom") DETECTION_CANDIDATES 2).length = 2 ∧
    (run_baseline_pipeline
        (Except.ok (detect_food_items (ModelOutcome.raises "boom") DETECTION_CANDIDATES 2))
        (fun _ => 1) MOCK_CANDIDATES 2 (fun _ => 1) none).pipeline.version
      = "ml-powered-1.0" :=
  ⟨(C10_detect_food_items_total (ModelOutcome.raises "boom") rfl DETECTION_CANDIDATES
      (List.Perm.refl _) 2 (by norm_num) (by norm_num)).1,
   (C10_detect_food_items_total (ModelOutcome.raises "boom") rfl DETECTION_CANDIDATES
      (List.Perm.refl _) 2 (by norm_num) (by norm_num)).2.2.2 (fun _ => 1)
      MOCK_CANDIDATES 2 (fun _ => 1) none⟩

/-- Claim C2: in both pipeline paths each of the four totals is the
one-decimal rounding of the sum of the corresponding already-rounded
per-item fields; on the primary path the last conjunct shows the final
rounding is a no-op (the total IS the exact sum of the rounded items, not a
sum-then-round of raw values). -/
theorem C2_totals_consistency :
    (∀ (ds : List Detection) (j : ℕ → ℚ),
      (estimate_nutrition ds j).total_calories_kcal
        = round1 (((estimate_nutrition ds j).items.map
            (fun it => it.estimated_calories_kcal)).sum) ∧
      (estimate_nutrition ds j).total_protein_g
        = round1 (((estimate_nutrition ds j).items.map
            (fun it => it.estimated_protein_g)).sum) ∧
      (estimate_nutrition ds j).total_carbs_g
        = round1 (((estimate_nutrition ds j).items.map
            (fun it => it.estimated_carbs_g)).sum) ∧
      (estimate_nutrition ds j).total_fat_g
        = round1 (((estimate_nutrition ds j).items.map
            (fun it => it.estimated_fat_g)).sum) ∧
      (estimate_nutrition ds j).total_calories_kcal
        = ((estimate_nutrition ds j).items.map
            (fun it => it.estimated_calories_kcal)).sum) ∧
    (∀ (sh : List FoodItemDetection) (n : ℕ) (fbJ : ℕ → ℚ) (fn : Option String),
      (run_fallback_pipeline sh n fbJ fn).total_calories_kcal
        = round1 (((run_fallback_pipeline sh n fbJ fn).items.map
            (fun it => it.estimated_calories_kcal)).sum) ∧
      (run_fallback_pipeline sh n fbJ fn).total_protein_g
        = round1 (((run_fallback_pipeline sh n fbJ fn).items.map
            (fun it => it.estimated_protein_g)).sum) ∧
      (run_fallback_pipeline sh n fbJ fn).total_carbs_g
        = round1 (((run_fallback_pipeline sh n fbJ fn).items.map
            (fun it => it.estimated_carbs_g)).sum) ∧
      (run_fallback_pipeline sh n fbJ fn).total_fat_g
        = round1 (((run_fallback_pipeline sh n fbJ fn).items.map
            (fun it => it.estimated_fat_g)).sum)) := by
  constructor
  · intro ds j
    have hc : (estimate_nutrition ds j).total_calories_kcal
        = round1 (((estimate_nutrition ds j).items.map
            (fun it => it.estimated_calories_kcal)).sum) := by
      show round1 (sumBy (fun it => it.estimated_calories_kcal) (estimate_items ds j 0)) = _
      rw [sumBy_eq]
      rfl
    refine ⟨hc, ?_, ?_, ?_, ?_⟩
    · show round1 (sumBy (fun it => it.estimated_protein_g) (estimate_items ds j 0)) = _
      rw [sumBy_eq]
      rfl
    · show round1 (sumBy (fun it => it.estimated_carbs_g) (estimate_items ds j 0)) = _
      rw [sumBy_eq]
      rfl
    · show round1 (sumBy (fun it => it.estimated_fat_g) (estimate_items ds j 0)) = _
      rw [sumBy_eq]
      rfl
    · rw [hc]
      refine round1_fix _ (sum_isTenth _ ?_)
      intro x hx
      rcases List.mem_map.mp hx with ⟨it, hit, rfl⟩
      exact estimate_items_mem
        (fun it => isTenth it.estimated_calories_kcal) j
        (fun d t => round1_isTenth _) ds 0 it hit
  · intro sh n fbJ fn
    refine ⟨?_, ?_, ?_, ?_⟩
    · show round1 (sumBy (fun it => it.estimated_calories_kcal) (fb_items sh n fbJ)) = _
      rw [sumBy_eq]
      rfl
    · show round1 (sumBy (fun it => it.estimated_protein_g) (fb_items sh n fbJ)) = _
      rw [sumBy_eq]
      rfl
    · show round1 (sumBy (fun it => it.estimated_carbs_g) (fb_items sh n fbJ)) = _
      rw [sumBy_eq]
      rfl
    · show round1 (sumBy (fun it => it.estimated_fat_g) (fb_items sh n fbJ)) = _
      rw [sumBy_eq]
      rfl

/-- Claim C8: aggregation preserves detection order with no sorting and no
deduplication — there is exactly one item per detection, the k-th item is
built from the k-th detection (its code is that detection's normalized
label and its name that detection's display name, so two detections with
the same code stay two distinct entries), and the totals sum over all
items. -/
theorem C8_order_no_dedup :
    ∀ (ds : List Detection) (j : ℕ → ℚ),
      (estimate_nutrition ds j).items.length = ds.length ∧
      (∀ k, ((estimate_nutrition ds j).items.get? k).map (fun it => it.code)
          = (ds.get? k).map (fun d => normalize_food_label d.label)) ∧
      (∀ k, ((estimate_nutrition ds j).items.get? k).map (fun it => it.name)
          = (ds.get? k).map (fun d => d.display_name)) ∧
      (estimate_nutrition ds j).total_calories_kcal
        = round1 (((estimate_nutrition ds j).items.map
            (fun it => it.estimated_calories_kcal)).sum) := by
  intro ds j
  refine ⟨estimate_items_length ds j 0, ?_, ?_, ?_⟩
  · intro k
    show ((estimate_items ds j 0).get? k).map (fun it => it.code) = _
    rw [estimate_items_get ds j 0 k]
    cases ds.get? k <;> rfl
  · intro k
    show ((estimate_items ds j 0).get? k).map (fun it => it.name) = _
    rw [estimate_items_get ds j 0 k]
    cases ds.get? k <;> rfl
  · show round1 (sumBy (fun it => it.estimated_calories_kcal) (estimate_items ds j 0)) = _
    rw [sumBy_eq]
    rfl

/-- Claim C9: with jitter draws inside the sampling ranges, every item of
either pipeline path has strictly positive weight and non-negative volume,
calories, protein, carbs and fat. -/
theorem C9_nonnegativity :
    (∀ (ds : List Detection) (j : ℕ → ℚ), (∀ t, 4/5 ≤ j t ∧ j t ≤ 6/5) →
      ∀ it ∈ (estimate_nutrition ds j).items,
        0 < it.estimated_weight_g ∧ 0 ≤ it.estimated_volume_ml ∧
        0 ≤ it.estimated_calories_kcal ∧ 0 ≤ it.estimated_protein_g ∧
        0 ≤ it.estimated_carbs_g ∧ 0 ≤ it.estimated_fat_g) ∧
    (∀ (sh : List FoodItemDetection) (n : ℕ) (j : ℕ → ℚ) (fn : Option String),
      (∀ t, 9/10 ≤ j t ∧ j t ≤ 11/10) →
      ∀ it ∈ (run_fallback_pipeline sh n j fn).items,
        0 < it.estimated_weight_g ∧ 0 ≤ it.estimated_volume_ml ∧
        0 ≤ it.estimated_calories_kcal ∧ 0 ≤ it.estimated_protein_g ∧
        0 ≤ it.estimated_carbs_g ∧ 0 ≤ it.estimated_fat_g) := by
  constructor
  · intro ds j hj
    refine estimate_items_mem _ j ?_ ds 0
    intro d t
    obtain ⟨hcal, hprot, hcarb, hfat, hdens, hserv⟩ :=
      dbGet_bounds (normalize_food_label d.label)
    have hjt := (hj t).1
    have hw0 : 4/5 ≤ (dbGet (normalize_food_label d.label)).typical_serving_g * j t := by
      nlinarith
    have hwpos : 0 < (mkItem d (j t)).estimated_weight_g := by
      rw [mkItem_weight]
      exact round1_pos _ (by linarith)
    have hwnn : 0 ≤ (mkItem d (j t)).estimated_weight_g := le_of_lt hwpos
    have hfactor : 0 ≤ (mkItem d (j t)).estimated_weight_g / 100 :=
      div_nonneg hwnn (by norm_num)
    refine ⟨hwpos, ?_, ?_, ?_, ?_, ?_⟩
    · rw [mkItem_volume]
      exact round1_nonneg _ (div_nonneg hwnn (le_of_lt hdens))
    · rw [mkItem_calories]
      exact round1_nonneg _ (mul_nonneg hcal hfactor)
    · rw [mkItem_protein]
      exact round1_nonneg _ (mul_nonneg hprot hfactor)
    · rw [mkItem_carbs]
      exact round1_nonneg _ (mul_nonneg hcarb hfactor)
    · rw [mkItem_fat]
      exact round1_nonneg _ (mul_nonneg hfat hfactor)
  · intro sh n j fn hj it hit
    rcases List.mem_map.mp hit with ⟨det, hdet, rfl⟩
    have hsome : (alistFind (fb_vols sh n j) det.label).isSome = true :=
      volumes_key_isSome j (fb_detections sh n) 0 [] det.label
        (Or.inl (List.mem_map_of_mem _ hdet))
    obtain ⟨v, hvfind⟩ := Option.isSome_iff_exists.mp hsome
    have hv81 : (81 : ℚ) ≤ v :=
      volumes_value_ge j (fun t => (hj t).1) (fb_detections sh n) 0 []
        (by intro k v0 h0; simp [alistFind] at h0) det.label v hvfind
    have hws : alistFind (fb_ws sh n j) det.label
        = some (round1 (v * density_table_get det.label)) := by
      show alistFind (convert_volume_to_weight_g (fb_vols sh n j)) det.label = _
      rw [find_weights, hvfind]
      rfl
    have hcals : alistFind (fb_cals sh n j) det.label
        = some (round1 (round1 (v * density_table_get det.label)
            * calorie_table_get det.label / 100)) := by
      show alistFind (compute_calories_kcal (fb_ws sh n j)) det.label = _
      rw [find_cals, hws]
      rfl
    have hmacs : alistFind (fb_macs sh n j) det.label
        = some ⟨round1 ((macros_table_get det.label).protein_g
              * (round1 (v * density_table_get det.label) / 100)),
            round1 ((macros_table_get det.label).carbs_g
              * (round1 (v * density_table_get det.label) / 100)),
            round1 ((macros_table_get det.label).fat_g
              * (round1 (v * density_table_get det.label) / 100))⟩ := by
      show alistFind (computeMacrosGrams (fb_ws sh n j)) det.label = _
      rw [find_macs, hws]
      rfl
    have hvd : (243/10 : ℚ) ≤ v * density_table_get det.label := by
      have hd := density_table_ge det.label
      nlinarith
    have hwpos : 0 < round1 (v * density_table_get det.label) :=
      round1_pos _ (by linarith)
    have hwnn : 0 ≤ round1 (v * density_table_get det.label) := le_of_lt hwpos
    have hfactor : 0 ≤ round1 (v * density_table_get det.label) / 100 :=
      div_nonneg hwnn (by norm_num)
    obtain ⟨hmp, hmc, hmf⟩ := macros_table_nonneg det.label
    refine ⟨?_, ?_, ?_, ?_, ?_, ?_⟩
    · show 0 < (alistFind (fb_ws sh n j) det.label).getD 0
      rw [hws]
      exact hwpos
    · show 0 ≤ (alistFind (fb_vols sh n j) det.label).getD 0
      rw [hvfind]
      show (0 : ℚ) ≤ v
      linarith
    · show 0 ≤ (alistFind (fb_cals sh n j) det.label).getD 0
      rw [hcals]
      exact round1_nonneg _
        (div_nonneg (mul_nonneg hwnn (calorie_table_nonneg det.label)) (by norm_num))
    · show 0 ≤ ((alistFind (fb_macs sh n j) det.label).getD ⟨0, 0, 0⟩).protein_g
      rw [hmacs]
      exact round1_nonneg _ (mul_nonneg hmp hfactor)
    · show 0 ≤ ((alistFind (fb_macs sh n j) det.label).getD ⟨0, 0, 0⟩).carbs_g
      rw [hmacs]
      exact round1_nonneg _ (mul_nonneg hmc hfactor)
    · show 0 ≤ ((alistFind (fb_macs sh n j) det.label).getD ⟨0, 0, 0⟩).fat_g
      rw [hmacs]
      exact round1_nonneg _ (mul_nonneg hmf hfactor)

/-- Witness for C9 on a concrete primary-path item with unit jitter. -/
theorem C9_nonnegativity_witness :
    0 < (mkItem ⟨"rice", "Rice", 1/2⟩ 1).estimated_weight_g ∧
    0 ≤ (mkItem ⟨"rice", "Rice", 1/2⟩ 1).estimated_calories_kcal := by
  have hmem : (mkItem ⟨"rice", "Rice", 1/2⟩ 1)
      ∈ (estimate_nutrition [⟨"rice", "Rice", 1/2⟩] (fun _ => 1)).items := by
    show (mkItem ⟨"rice", "Rice", 1/2⟩ 1) ∈ [mkItem ⟨"rice", "Rice", 1/2⟩ 1]
    exact List.mem_singleton.mpr rfl
  have h := C9_nonnegativity.1 [⟨"rice", "Rice", 1/2⟩] (fun _ => 1)
    (by intro t; constructor <;> norm_num) _ hmem
  exact ⟨h.1, h.2.2.1⟩

/-- Counterexample to claim C7: on the weight-first path with jitter 1 the
grilled-chicken item has weight 150 g and volume 142.9 ml, but
150 / 1.05 = 1000/7 ≠ 142.9 — the computed volume is the ROUNDED quotient,
so "volume equals weight divided by density" fails as an exact equality. -/
theorem C7_cex :
    ((estimate_nutrition [⟨"grilled_chicken", "Grilled Chicken", 87/100⟩]
        (fun _ => 1)).items.get? 0).map (fun it => it.estimated_volume_ml)
      = some (1429/10) ∧
    ((estimate_nutrition [⟨"grilled_chicken", "Grilled Chicken", 87/100⟩]
        (fun _ => 1)).items.get? 0).map (fun it => it.estimated_weight_g)
      = some 150 ∧
    (dbGet "grilled_chicken").density_g_per_ml = 105/100 ∧
    (1429/10 : ℚ) ≠ 150 / (105/100) := by
  have hw : round1 ((150 : ℚ) * 1) = 150 := by
    rw [round1_eq ((150 : ℚ) * 1) 1500 (by norm_num) (by norm_num)]
    norm_num
  refine ⟨?_, ?_, rfl, by norm_num⟩
  · show some (round1 (round1 ((150 : ℚ) * 1) / (105/100))) = some (1429/10)
    rw [hw, round1_eq ((150 : ℚ) / (105/100)) 1429 (by norm_num) (by norm_num)]
    norm_num
  · show some (round1 ((150 : ℚ) * 1)) = some 150
    rw [hw]

/-- Claim C7 as amended: the weight-first estimator rounds the jittered
typical serving to one decimal and derives volume as the ROUNDED quotient
weight/density; the volume-first estimator rounds the jittered base volume
and derives weight as the ROUNDED product volume*density; the nutrition
table's density defaults to 1.0 for unknown codes, as does the fallback
density table. -/
theorem C7_serving_estimators_amended :
    (∀ (ds : List Detection) (j : ℕ → ℚ) (k : ℕ) (it : EstimatedItem),
      (estimate_nutrition ds j).items.get? k = some it →
      it.estimated_weight_g = round1 ((dbGet it.code).typical_serving_g * j k) ∧
      it.estimated_volume_ml
        = round1 (it.estimated_weight_g / (dbGet it.code).density_g_per_ml)) ∧
    (∀ (sh : List FoodItemDetection) (n : ℕ) (j : ℕ → ℚ) (fn : Option String),
      ((mock_detect_food_items sh n).map (fun d => d.label)).Nodup →
      ∀ (k : ℕ) (it : EstimatedItem),
        (run_fallback_pipeline sh n j fn).items.get? k = some it →
        it.estimated_volume_ml = round1 (base_volume it.code * j k) ∧
        it.estimated_weight_g
          = round1 (it.estimated_volume_ml * density_table_get it.code)) ∧
    (∀ s : String, alistFind NUTRITION_DATABASE s = none →
      (dbGet s).density_g_per_ml = 1) ∧
    (∀ s : String, s ≠ "grilled_chicken_breast" → s ≠ "steamed_rice" →
      s ≠ "broccoli" → s ≠ "mixed_salad" → density_table_get s = 1) := by
  refine ⟨?_, ?_, ?_, ?_⟩
  · intro ds j k it hit
    have hg := estimate_items_get ds j 0 k
    rw [Nat.zero_add] at hg
    rw [show (estimate_nutrition ds j).items = estimate_items ds j 0 from rfl, hg] at hit
    cases hd : ds.get? k with
    | none => rw [hd] at hit; exact Option.noConfusion hit
    | some d =>
      rw [hd] at hit
      simp only [Option.map_some'] at hit
      injection hit with hit
      subst hit
      constructor
      · rw [mkItem_code]
        exact mkItem_weight d (j k)
      · rw [mkItem_code]
        exact mkItem_volume d (j k)
  · intro sh n j fn hnd k it hit
    have hmap : (run_fallback_pipeline sh n j fn).items.get? k
        = ((fb_detections sh n).get? k).map
            (fallbackItem (fb_vols sh n j) (fb_ws sh n j) (fb_cals sh n j)
              (fb_macs sh n j)) := by
      show (fb_items sh n j).get? k = _
      exact List.get?_map _ _ _
    rw [hmap] at hit
    cases hd : (fb_detections sh n).get? k with
    | none => rw [hd] at hit; exact Option.noConfusion hit
    | some det =>
      rw [hd] at hit
      simp only [Option.map_some'] at hit
      injection hit with hit
      subst hit
      have hvfind : alistFind (fb_vols sh n j) det.label
          = some (round1 (base_volume det.label * j k)) := by
        have := volumes_get_nodup j (fb_detections sh n) 0 [] hnd k det hd
        rw [Nat.zero_add] at this
        exact this
      have hws : alistFind (fb_ws sh n j) det.label
          = some (round1 (round1 (base_volume det.label * j k)
              * density_table_get det.label)) := by
        show alistFind (convert_volume_to_weight_g (fb_vols sh n j)) det.label = _
        rw [find_weights, hvfind]
        rfl
      constructor
      · show (alistFind (fb_vols sh n j) det.label).getD 0
          = round1 (base_volume det.label * j k)
        rw [hvfind]
        rfl
      · show (alistFind (fb_ws sh n j) det.label).getD 0
          = round1 ((alistFind (fb_vols sh n j) det.label).getD 0
              * density_table_get det.label)
        rw [hws, hvfind]
        rfl
  · intro s h
    show ((alistFind NUTRITION_DATABASE s).getD DEFAULT_FACTS).density_g_per_ml = 1
    rw [h]
    rfl
  · intro s h1 h2 h3 h4
    unfold density_table_get
    rw [if_neg h1, if_neg h2, if_neg h3, if_neg h4]

/-- Witness for C7's amended statement at concrete items of both paths. -/
theorem C7_serving_estimators_amended_witness :
    ((estimate_nutrition [⟨"rice", "Rice", 1/2⟩] (fun _ => 1)).items.get? 0).map
        (fun it => it.estimated_weight_g)
      = ((estimate_nutrition [⟨"rice", "Rice", 1/2⟩] (fun _ => 1)).items.get? 0).map
        (fun it => round1 ((dbGet it.code).typical_serving_g * 1)) ∧
    ((run_fallback_pipeline MOCK_CANDIDATES 2 (fun _ => 1) none).items.get? 0).map
        (fun it => it.estimated_volume_ml)
      = ((run_fallback_pipeline MOCK_CANDIDATES 2 (fun _ => 1) none).items.get? 0).map
        (fun it => round1 (base_volume it.code * 1)) := by
  constructor
  · cases hh : (estimate_nutrition [⟨"rice", "Rice", 1/2⟩] (fun _ => 1)).items.get? 0 with
    | none => rfl
    | some it =>
      have h := (C7_serving_estimators_amended.1 [⟨"rice", "Rice", 1/2⟩]
        (fun _ => 1) 0 it hh).1
      show some it.estimated_weight_g
          = some (round1 ((dbGet it.code).typical_serving_g * 1))
      rw [h]
  · cases hh : (run_fallback_pipeline MOCK_CANDIDATES 2 (fun _ => 1) none).items.get? 0 with
    | none => rfl
    | some it =>
      have h := (C7_serving_estimators_amended.2.1 MOCK_CANDIDATES 2
        (fun _ => 1) none (by decide) 0 it hh).1
      show some it.estimated_volume_ml = some (round1 (base_volume it.code * 1))
      rw [h]

end FoodLogger
